import Mathlib

/-!
Verification of the Instagram token lifecycle manager in
`api/instagram-token.js` (Vercel serverless function).

The code is shallowly embedded: the Vercel KV store becomes an explicit
state (`KVState`: a map from string keys to stored values plus a wall
clock used for `Date.now()`), the remote Instagram Graph API becomes a
pair of oracles (`validate` for the identity-check `GET /me`, `refresh`
for `GET /refresh_access_token`, which may throw), and `process.env`
becomes an association list of environment variables.  Async exceptions
are modelled with `Except String`; since the KV store is external, a
throwing call still returns the store state reached at the throw point,
so every embedded operation returns `Except String α × KVState`.

JavaScript truthiness matters in several places (`if (!token)`,
`!!process.env[...]`): the empty string is falsy, which `truthyStr`
captures.
-/

namespace InstagramToken

/-- Decidable equality for `Except`, so that concrete runs can be settled
by `decide`. -/
instance {ε α : Type} [DecidableEq ε] [DecidableEq α] : DecidableEq (Except ε α) := fun a b =>
  match a, b with
  | .ok x, .ok y => if h : x = y then .isTrue (by rw [h]) else .isFalse (by simp [h])
  | .error x, .error y => if h : x = y then .isTrue (by rw [h]) else .isFalse (by simp [h])
  | .ok _, .error _ => .isFalse (by simp)
  | .error _, .ok _ => .isFalse (by simp)

/-- Embeds `websiteId.toUpperCase()` (characterwise, as for the ASCII ids the
code is used with). -/
def strUpper (s : String) : String :=
  String.mk (s.data.map Char.toUpper)

/-- Embeds `key.toLowerCase()` (characterwise, as for the ASCII ids the code is
used with). -/
def strLower (s : String) : String :=
  String.mk (s.data.map Char.toLower)

/-- A value stored in the Vercel KV store: the code stores token strings
and numeric refresh timestamps; `undef` models `kv.set(key, undefined)`
(reachable in `refreshAllTokens` when the env lookup misses). -/
inductive KVal where
  | str : String → KVal
  | num : Nat → KVal
  | undef : KVal
deriving DecidableEq, Repr

/-- The external world state: the KV store contents and the current wall
clock (milliseconds since epoch, read by `Date.now()`).  The clock is an
input of each call and is held fixed within a call. -/
structure KVState where
  kv : String → Option KVal
  now : Nat

/-- The process environment and the remote Instagram Graph API, as seen
by the code.  `validate t` is the outcome of the identity-check
`GET https://graph.instagram.com/me?access_token=t` (the JS wrapper
catches all errors and returns a boolean).  `refresh t` is the outcome of
`GET https://graph.instagram.com/refresh_access_token?...&access_token=t`:
either a thrown error or the new `access_token`.  Both remote endpoints
depend only on the token sent (the `websiteId` argument of the JS
wrappers is used for logging only). -/
structure Env where
  env : List (String × String)
  validate : String → Bool
  refresh : String → Except String String

/-- Embeds `process.env[key]` over the association-list environment. -/
def envGet : List (String × String) → String → Option String
  | [], _ => none
  | (k, v) :: rest, key => if k = key then some v else envGet rest key

/-- JavaScript truthiness for an optional string: `undefined`/`null` and
`""` are falsy. -/
def truthyStr : Option String → Option String
  | some t => if t = "" then none else some t
  | none => none

/-- The environment-variable key `INITIAL_INSTAGRAM_TOKEN_${websiteId.toUpperCase()}`. -/
def tokenEnvKey (websiteId : String) : String :=
  "INITIAL_INSTAGRAM_TOKEN_" ++ strUpper websiteId

/-- The KV key `instagram_token_${websiteId}` (note: the raw id, not normalized). -/
def storeTokenKey (websiteId : String) : String :=
  "instagram_token_" ++ websiteId

/-- The KV key `token_refresh_date_${websiteId}` (note: the raw id, not normalized). -/
def storeDateKey (websiteId : String) : String :=
  "token_refresh_date_" ++ websiteId

/-- Embeds `kv.set(key, v)`. -/
def kvSet (key : String) (v : KVal) (s : KVState) : KVState :=
  { s with kv := fun k => if k = key then some v else s.kv k }

/-- Embeds `isValidWebsiteId`: `!!process.env[`INITIAL_INSTAGRAM_TOKEN_${websiteId.toUpperCase()}`]`. -/
def isValidWebsiteId (env : List (String × String)) (websiteId : String) : Bool :=
  (truthyStr (envGet env (tokenEnvKey websiteId))).isSome

/-- Embeds `validateToken(websiteId, token)`: calls the identity-check; never
throws (the JS function catches every error and returns `false`). -/
def validateToken (E : Env) (websiteId token : String) : Bool :=
  let _ := websiteId
  E.validate token

/-- Embeds `getStoredToken(websiteId)`: `kv.get(`instagram_token_${websiteId}`)`,
returning the token if truthy, otherwise `null`. -/
def getStoredToken (websiteId : String) (s : KVState) : Option String :=
  match s.kv (storeTokenKey websiteId) with
  | some (KVal.str t) => if t = "" then none else some t
  | _ => none

/-- Embeds `updateStoredToken(websiteId, newToken)`: sets the token entry, then
sets the refresh-date entry to `Date.now()`.  `newToken` is `Option`
because `refreshAllTokens` can pass an `undefined` env lookup. -/
def updateStoredToken (websiteId : String) (newToken : Option String) (s : KVState) : KVState :=
  let s1 := kvSet (storeTokenKey websiteId)
    (match newToken with
     | some t => KVal.str t
     | none => KVal.undef) s
  kvSet (storeDateKey websiteId) (KVal.num s1.now) s1

/-- Embeds `getLastRefreshDate(websiteId)`: `kv.get(`token_refresh_date_${websiteId}`)`;
`none` models the `parseInt(null) = NaN` outcome when the entry is absent. -/
def getLastRefreshDate (websiteId : String) (s : KVState) : Option Nat :=
  match s.kv (storeDateKey websiteId) with
  | some (KVal.num n) => some n
  | _ => none

/-- Embeds `refreshToken(websiteId, currentToken)`: calls the refresh endpoint;
on success persists the new token via `updateStoredToken` and returns it;
on failure rethrows (leaving the store untouched). -/
def refreshToken (E : Env) (websiteId currentToken : String) (s : KVState) :
    Except String String × KVState :=
  match E.refresh currentToken with
  | .error e => (.error e, s)
  | .ok newToken => (.ok newToken, updateStoredToken websiteId (some newToken) s)

/-- Embeds `validateAndRefreshToken(websiteId, currentToken)` — the lifecycle
core (`ensureValid` of the spec): validate; if invalid, refresh (which
persists on success) and re-validate; if the refreshed token is still
invalid, fall back to the configured initial token (persisting it), or
throw `'No valid initial token available'` when none is configured.  The
outer `catch` only logs and rethrows, so it is not modelled. -/
def validateAndRefreshToken (E : Env) (websiteId currentToken : String) (s : KVState) :
    Except String String × KVState :=
  if validateToken E websiteId currentToken then
    (.ok currentToken, s)
  else
    match refreshToken E websiteId currentToken s with
    | (.error e, s1) => (.error e, s1)
    | (.ok newToken, s1) =>
      if validateToken E websiteId newToken then
        (.ok newToken, s1)
      else
        match truthyStr (envGet E.env (tokenEnvKey websiteId)) with
        | none => (.error "No valid initial token available", s1)
        | some initialToken =>
          (.ok initialToken, updateStoredToken websiteId (some initialToken) s1)

/-- One iteration of the `refreshAllTokens` loop body, per `websiteId`:
load the stored token; if present run `validateAndRefreshToken`, else
store the initial env token directly.  Errors are caught (`try/catch`
logs and continues), reported here as a `Bool` (true = no error). -/
def refreshOneAccount (E : Env) (websiteId : String) (s : KVState) : Bool × KVState :=
  match getStoredToken websiteId s with
  | some currentToken =>
    match validateAndRefreshToken E websiteId currentToken s with
    | (.ok _, s1) => (true, s1)
    | (.error _, s1) => (false, s1)
  | none =>
    (true, updateStoredToken websiteId (envGet E.env (tokenEnvKey websiteId)) s)

/-- Embeds `startsWith` on the underlying character lists. -/
def strHasPrefix (p s : String) : Bool :=
  p.data.isPrefixOf s.data

/-- Embeds `key.replace('INITIAL_INSTAGRAM_TOKEN_', '')` for keys that start
with the prefix: drop the prefix characters. -/
def dropEnvPrefix (key : String) : String :=
  String.mk (key.data.drop ("INITIAL_INSTAGRAM_TOKEN_".data.length))

/-- The account enumeration of `refreshAllTokens`:
`Object.keys(process.env).filter(startsWith prefix).map(strip prefix, toLowerCase)`. -/
def websiteIdsOf (env : List (String × String)) : List String :=
  ((env.map Prod.fst).filter (fun k => strHasPrefix "INITIAL_INSTAGRAM_TOKEN_" k)).map
    (fun k => strLower (dropEnvPrefix k))

/-- The `for (const websiteId of websiteIds)` loop of `refreshAllTokens`,
threading the store state and collecting the per-account outcome. -/
def refreshAllGo (E : Env) : List String → KVState → List (String × Bool) × KVState
  | [], s => ([], s)
  | websiteId :: rest, s =>
    let (ok, s1) := refreshOneAccount E websiteId s
    let (r, s2) := refreshAllGo E rest s1
    ((websiteId, ok) :: r, s2)

/-- Embeds `refreshAllTokens()`: enumerate accounts from the environment and
process each in order; per-account errors are caught and recorded, never
aborting the loop. -/
def refreshAllTokens (E : Env) (s : KVState) : List (String × Bool) × KVState :=
  refreshAllGo E (websiteIdsOf E.env) s

/-- The token-resolution body of `apiHandler` (the spec's `resolveToken`):
read the stored token; if absent seed it from the initial env token
(throwing `'No valid token available'` when that is falsy), then always
run `validateAndRefreshToken`. -/
def resolveToken (E : Env) (websiteId : String) (s : KVState) :
    Except String String × KVState :=
  match getStoredToken websiteId s with
  | some token => validateAndRefreshToken E websiteId token s
  | none =>
    match truthyStr (envGet E.env (tokenEnvKey websiteId)) with
    | none => (.error "No valid token available", s)
    | some token =>
      validateAndRefreshToken E websiteId token (updateStoredToken websiteId (some token) s)

/-- An inbound HTTP request as `apiHandler` consumes it: the method and
the `websiteId` query parameter. -/
structure Req where
  method : String
  websiteId : Option String

/-- The responses `apiHandler` can produce, by shape. -/
inductive ApiResp where
  | options
  | badRequest (message : String)
  | ok (lastRefresh : Nat) (token : String)
  | serverError (error : String)
deriving DecidableEq, Repr

/-- The HTTP status code sent with each response shape. -/
def ApiResp.status : ApiResp → Nat
  | .options => 200
  | .badRequest _ => 400
  | .ok _ _ => 200
  | .serverError _ => 500

/-- Embeds `apiHandler(req, res)`: CORS preflight, parameter presence check,
`isValidWebsiteId` check (before any store access), then the resolve
logic inside `try`, with `getLastRefreshDate` formatting on success;
`serverError` also covers `new Date(NaN).toISOString()` throwing when the
refresh-date entry is absent. -/
def apiHandler (E : Env) (req : Req) (s : KVState) : ApiResp × KVState :=
  if req.method = "OPTIONS" then
    (.options, s)
  else
    match truthyStr req.websiteId with
    | none => (.badRequest "WebsiteID is required", s)
    | some websiteId =>
      if !isValidWebsiteId E.env websiteId then
        (.badRequest "Invalid websiteID", s)
      else
        match resolveToken E websiteId s with
        | (.error e, s1) => (.serverError e, s1)
        | (.ok token, s1) =>
          match getLastRefreshDate websiteId s1 with
          | none => (.serverError "Invalid time value", s1)
          | some lastRefresh => (.ok lastRefresh token, s1)

/-! ### Helper lemmas about the store primitives -/

theorem string_append_cancel_left (p a b : String) (h : p ++ a = p ++ b) : a = b := by
  cases a with | mk da =>
  cases b with | mk db =>
  cases p with | mk dp =>
  simp only [HAppend.hAppend, String.append] at h
  have h2 : dp ++ da = dp ++ db := by injection h
  have := List.append_cancel_left h2
  simp [this]

@[simp] theorem kvSet_kv_same (key : String) (v : KVal) (s : KVState) :
    (kvSet key v s).kv key = some v := by
  simp [kvSet]

theorem kvSet_kv_other (key k : String) (v : KVal) (s : KVState) (h : k ≠ key) :
    (kvSet key v s).kv k = s.kv k := by
  simp [kvSet, h]

@[simp] theorem kvSet_now (key : String) (v : KVal) (s : KVState) :
    (kvSet key v s).now = s.now := rfl

theorem storeTokenKey_ne_storeDateKey (id1 id2 : String) :
    storeTokenKey id1 ≠ storeDateKey id2 := by
  intro h
  have h2 : (storeTokenKey id1).data = (storeDateKey id2).data := congrArg String.data h
  simp only [storeTokenKey, storeDateKey, HAppend.hAppend, Append.append, String.append] at h2
  have h3 := congrArg List.head? h2
  simp [String.data] at h3

theorem storeTokenKey_injective (id1 id2 : String) (h : storeTokenKey id1 = storeTokenKey id2) :
    id1 = id2 :=
  string_append_cancel_left _ _ _ h

theorem storeDateKey_injective (id1 id2 : String) (h : storeDateKey id1 = storeDateKey id2) :
    id1 = id2 :=
  string_append_cancel_left _ _ _ h

@[simp] theorem updateStoredToken_kv_token (id : String) (nt : Option String) (s : KVState) :
    (updateStoredToken id nt s).kv (storeTokenKey id)
      = some (match nt with | some t => KVal.str t | none => KVal.undef) := by
  simp [updateStoredToken, kvSet_kv_other _ _ _ _ (storeTokenKey_ne_storeDateKey id id)]

@[simp] theorem updateStoredToken_kv_date (id : String) (nt : Option String) (s : KVState) :
    (updateStoredToken id nt s).kv (storeDateKey id) = some (KVal.num s.now) := by
  simp [updateStoredToken]

@[simp] theorem updateStoredToken_now (id : String) (nt : Option String) (s : KVState) :
    (updateStoredToken id nt s).now = s.now := rfl

theorem getStoredToken_kv (id t : String) (s : KVState)
    (h : getStoredToken id s = some t) : s.kv (storeTokenKey id) = some (KVal.str t) := by
  unfold getStoredToken at h
  split at h
  · next t' heq =>
    split at h
    · exact absurd h (by simp)
    · cases h; exact heq
  · exact absurd h (by simp)

theorem getStoredToken_ne_empty (id t : String) (s : KVState)
    (h : getStoredToken id s = some t) : t ≠ "" := by
  unfold getStoredToken at h
  split at h
  · split at h
    · exact absurd h (by simp)
    · next hne => cases h; exact hne
  · exact absurd h (by simp)

theorem getStoredToken_of_kv (id t : String) (s : KVState)
    (hkv : s.kv (storeTokenKey id) = some (KVal.str t)) (hne : t ≠ "") :
    getStoredToken id s = some t := by
  simp [getStoredToken, hkv, hne]

/-! ### Shared concrete fixtures for closed runs -/

/-- An empty KV store with the wall clock at 1000 ms. -/
def emptyKV : KVState := { kv := fun _ => none, now := 1000 }

/-- A store holding token `T0` for account `acme` and nothing else. -/
def kvAcmeT0 : KVState := kvSet (storeTokenKey "acme") (KVal.str "T0") emptyKV

/-- Environment of one account `acme` (fallback `FB`) whose remote
provider rejects every identity-check and refreshes every token to `T1`. -/
def envAllInvalid : Env :=
  { env := [("INITIAL_INSTAGRAM_TOKEN_ACME", "FB")]
    validate := fun _ => false
    refresh := fun _ => .ok "T1" }

/-- Environment of one account `acme` (fallback `FB`) whose remote
provider rejects every identity-check and throws on every refresh. -/
def envRefreshThrows : Env :=
  { env := [("INITIAL_INSTAGRAM_TOKEN_ACME", "FB")]
    validate := fun _ => false
    refresh := fun _ => .error "boom" }

/-- Environment of one account `acme` (fallback `FB`) whose remote
provider accepts every identity-check. -/
def envAllValid : Env :=
  { env := [("INITIAL_INSTAGRAM_TOKEN_ACME", "FB")]
    validate := fun _ => true
    refresh := fun _ => .error "unreachable" }

/-! ### Claim C3 -/

/-- Claim C3: for every account whose stored token passes the
identity-check, `resolveToken` returns that stored token unchanged and
performs no write to the Credential Store (the final state equals the
initial state). -/
theorem resolveToken_valid_stored (E : Env) (websiteId token : String) (s : KVState)
    (hstored : getStoredToken websiteId s = some token)
    (hvalid : validateToken E websiteId token = true) :
    resolveToken E websiteId s = (.ok token, s) := by
  simp [resolveToken, hstored, validateAndRefreshToken, hvalid]

/-- Concrete run of `resolveToken_valid_stored`: account `acme` with
stored token `T0` that the provider accepts. -/
theorem resolveToken_valid_stored_witness :
    getStoredToken "acme" kvAcmeT0 = some "T0" ∧
    validateToken envAllValid "acme" "T0" = true ∧
    resolveToken envAllValid "acme" kvAcmeT0 = (.ok "T0", kvAcmeT0) :=
  ⟨by decide, by decide,
    resolveToken_valid_stored envAllValid "acme" "T0" kvAcmeT0 (by decide) (by decide)⟩

/-! ### Claim C1 -/

/-- Claim C1 counterexample: on the fallback path the returned token has
NOT been validated within the call.  With every identity-check failing,
`validateAndRefreshToken` still succeeds with the fallback token `FB`,
whose identity-check is false. -/
theorem validateAndRefresh_fallback_unvalidated :
    (validateAndRefreshToken envAllInvalid "acme" "T0" emptyKV).1 = .ok "FB" ∧
    validateToken envAllInvalid "acme" "FB" = false := by
  exact ⟨by decide, by decide⟩

/-- Claim C1 (amended): every success of `validateAndRefreshToken`
returns a token positively validated within the call, EXCEPT on the
fallback path, where the configured fallback token is persisted and
returned without re-validation. -/
theorem validateAndRefresh_success_validated_or_fallback (E : Env)
    (websiteId currentToken : String) (s : KVState) (r : String)
    (h : (validateAndRefreshToken E websiteId currentToken s).1 = .ok r) :
    validateToken E websiteId r = true ∨
      (truthyStr (envGet E.env (tokenEnvKey websiteId)) = some r ∧
        ((validateAndRefreshToken E websiteId currentToken s).2).kv (storeTokenKey websiteId)
          = some (KVal.str r)) := by
  cases h1 : validateToken E websiteId currentToken with
  | true =>
    have heq : validateAndRefreshToken E websiteId currentToken s = (.ok currentToken, s) := by
      simp [validateAndRefreshToken, h1]
    rw [heq] at h
    simp at h
    subst h
    exact Or.inl h1
  | false =>
    cases href : E.refresh currentToken with
    | error e =>
      have heq : validateAndRefreshToken E websiteId currentToken s = (.error e, s) := by
        simp [validateAndRefreshToken, h1, refreshToken, href]
      rw [heq] at h
      simp at h
    | ok newToken =>
      cases h2 : validateToken E websiteId newToken with
      | true =>
        have heq : validateAndRefreshToken E websiteId currentToken s
            = (.ok newToken, updateStoredToken websiteId (some newToken) s) := by
          simp [validateAndRefreshToken, h1, refreshToken, href, h2]
        rw [heq] at h
        simp at h
        subst h
        exact Or.inl h2
      | false =>
        cases hfb : truthyStr (envGet E.env (tokenEnvKey websiteId)) with
        | none =>
          have heq : validateAndRefreshToken E websiteId currentToken s
              = (.error "No valid initial token available",
                  updateStoredToken websiteId (some newToken) s) := by
            simp [validateAndRefreshToken, h1, refreshToken, href, h2, hfb]
          rw [heq] at h
          simp at h
        | some fb =>
          have heq : validateAndRefreshToken E websiteId currentToken s
              = (.ok fb, updateStoredToken websiteId (some fb)
                  (updateStoredToken websiteId (some newToken) s)) := by
            simp [validateAndRefreshToken, h1, refreshToken, href, h2, hfb]
          rw [heq] at h
          simp at h
          subst h
          rw [heq]
          exact Or.inr ⟨rfl, by simp⟩

/-- Concrete run of `validateAndRefresh_success_validated_or_fallback`:
the valid-current-token path, where the returned token was validated. -/
theorem validateAndRefresh_success_validated_or_fallback_witness :
    (validateAndRefreshToken envAllValid "acme" "T0" emptyKV).1 = .ok "T0" ∧
    (validateToken envAllValid "acme" "T0" = true ∨
      (truthyStr (envGet envAllValid.env (tokenEnvKey "acme")) = some "T0" ∧
        ((validateAndRefreshToken envAllValid "acme" "T0" emptyKV).2).kv (storeTokenKey "acme")
          = some (KVal.str "T0"))) :=
  ⟨by decide,
    validateAndRefresh_success_validated_or_fallback envAllValid "acme" "T0" emptyKV "T0"
      (by decide)⟩

/-! ### Claim C2 -/

/-- Claim C2 counterexample: the fallback token `FB` is configured for
`acme`, but when the refresh call throws, `validateAndRefreshToken`
propagates the error instead of returning the fallback token, and the
store is not updated to hold the fallback. -/
theorem validateAndRefresh_refresh_throw_no_fallback :
    isValidWebsiteId envRefreshThrows.env "acme" = true ∧
    (validateAndRefreshToken envRefreshThrows "acme" "T0" emptyKV).1 = .error "boom" ∧
    ((validateAndRefreshToken envRefreshThrows "acme" "T0" emptyKV).2).kv
      (storeTokenKey "acme") = none := by
  exact ⟨by decide, by decide, by decide⟩

/-- Claim C2 (amended): for an invalid current token, (i) when the
refresh call throws, the error propagates and the store is untouched (no
fallback is attempted); (ii) only when the refresh succeeds but the
refreshed token fails re-validation does the configured fallback token
get returned, with the store updated to hold it. -/
theorem validateAndRefresh_refresh_outcomes (E : Env) (websiteId t : String) (s : KVState)
    (e nt fb : String)
    (hinv : validateToken E websiteId t = false) :
    (E.refresh t = .error e → validateAndRefreshToken E websiteId t s = (.error e, s)) ∧
    (E.refresh t = .ok nt → validateToken E websiteId nt = false →
      truthyStr (envGet E.env (tokenEnvKey websiteId)) = some fb →
      (validateAndRefreshToken E websiteId t s).1 = .ok fb ∧
        ((validateAndRefreshToken E websiteId t s).2).kv (storeTokenKey websiteId)
          = some (KVal.str fb)) := by
  constructor
  · intro href
    simp [validateAndRefreshToken, hinv, refreshToken, href]
  · intro href hnew hfb
    simp [validateAndRefreshToken, hinv, refreshToken, href, hnew, hfb]

/-- Concrete run of `validateAndRefresh_refresh_outcomes`, fallback
branch: refresh succeeds with `T1`, `T1` fails re-validation, so the
configured fallback `FB` is returned and stored. -/
theorem validateAndRefresh_refresh_outcomes_witness :
    (validateAndRefreshToken envAllInvalid "acme" "T0" emptyKV).1 = .ok "FB" ∧
    ((validateAndRefreshToken envAllInvalid "acme" "T0" emptyKV).2).kv
      (storeTokenKey "acme") = some (KVal.str "FB") :=
  (validateAndRefresh_refresh_outcomes envAllInvalid "acme" "T0" emptyKV "unused" "T1" "FB"
    (by decide)).2 (by decide) (by decide) (by decide)

/-! ### Claim C4 -/

/-- Environment of one account `acme` whose provider accepts only the
token `T1` and refreshes every token to `T1`. -/
def envOnlyT1Valid : Env :=
  { env := [("INITIAL_INSTAGRAM_TOKEN_ACME", "FB")]
    validate := fun t => t == "T1"
    refresh := fun _ => .ok "T1" }

/-- A store holding token `T0` for `acme` with refresh date 500, clock at 1000. -/
def kvAcmeT0Dated : KVState :=
  kvSet (storeDateKey "acme") (KVal.num 500) kvAcmeT0

/-- Claim C4: when the stored token fails the identity-check but the
refresh succeeds and the refreshed token re-validates, `resolveToken`
returns the new token, and the store afterwards holds the new token with
a `lastRefreshedAt` strictly greater than before — given that the call's
wall clock (`Date.now()`) is strictly past the previously stored
timestamp. -/
theorem resolveToken_refresh_success (E : Env) (websiteId t nt : String) (t0 : Nat)
    (s : KVState)
    (hstored : getStoredToken websiteId s = some t)
    (hinv : validateToken E websiteId t = false)
    (href : E.refresh t = .ok nt)
    (hval : validateToken E websiteId nt = true)
    (hts : s.kv (storeDateKey websiteId) = some (KVal.num t0))
    (hclock : t0 < s.now) :
    (resolveToken E websiteId s).1 = .ok nt ∧
    ((resolveToken E websiteId s).2).kv (storeTokenKey websiteId) = some (KVal.str nt) ∧
    ∃ t1, ((resolveToken E websiteId s).2).kv (storeDateKey websiteId) = some (KVal.num t1)
      ∧ t0 < t1 := by
  have heq : resolveToken E websiteId s = (.ok nt, updateStoredToken websiteId (some nt) s) := by
    simp [resolveToken, hstored, validateAndRefreshToken, hinv, refreshToken, href, hval]
  rw [heq]
  exact ⟨rfl, by simp, s.now, by simp, hclock⟩

/-- Concrete run of `resolveToken_refresh_success`: stored `T0` is
rejected, refresh yields `T1` which validates; old timestamp 500, clock
at 1000. -/
theorem resolveToken_refresh_success_witness :
    (resolveToken envOnlyT1Valid "acme" kvAcmeT0Dated).1 = .ok "T1" ∧
    ((resolveToken envOnlyT1Valid "acme" kvAcmeT0Dated).2).kv (storeTokenKey "acme")
        = some (KVal.str "T1") ∧
    ∃ t1, ((resolveToken envOnlyT1Valid "acme" kvAcmeT0Dated).2).kv (storeDateKey "acme")
        = some (KVal.num t1) ∧ 500 < t1 :=
  resolveToken_refresh_success envOnlyT1Valid "acme" "T0" "T1" 500 kvAcmeT0Dated
    (by decide) (by decide) (by decide) (by decide) (by decide) (by decide)

/-! ### Claim C10 -/

/-- Environment with no configured accounts whose provider rejects every
identity-check and refreshes every token to `T1`. -/
def envNoFallback : Env :=
  { env := []
    validate := fun _ => false
    refresh := fun _ => .ok "T1" }

/-- Claim C10 counterexample: `validateAndRefreshToken` throws
(`'No valid initial token available'`) yet the store was changed by the
call — the refreshed token `T1` was persisted before the failed
re-validation, so the token entry no longer holds its pre-call value. -/
theorem validateAndRefresh_throw_after_persist :
    (validateAndRefreshToken envNoFallback "acme" "T0" emptyKV).1
        = .error "No valid initial token available" ∧
    ((validateAndRefreshToken envNoFallback "acme" "T0" emptyKV).2).kv (storeTokenKey "acme")
        = some (KVal.str "T1") ∧
    emptyKV.kv (storeTokenKey "acme") = none := by
  exact ⟨by decide, by decide, by decide⟩

/-- Claim C10 (amended): when `validateAndRefreshToken` throws, either
the refresh call itself failed and the store is unchanged, or the refresh
succeeded (and the refreshed token was persisted) before the call failed
on re-validation with no fallback configured. -/
theorem validateAndRefresh_error_state (E : Env) (websiteId t : String) (s : KVState)
    (e : String)
    (h : (validateAndRefreshToken E websiteId t s).1 = .error e) :
    (E.refresh t = .error e ∧ (validateAndRefreshToken E websiteId t s).2 = s) ∨
    (∃ nt, E.refresh t = .ok nt ∧
      (validateAndRefreshToken E websiteId t s).2
        = updateStoredToken websiteId (some nt) s) := by
  cases h1 : validateToken E websiteId t with
  | true =>
    have heq : validateAndRefreshToken E websiteId t s = (.ok t, s) := by
      simp [validateAndRefreshToken, h1]
    rw [heq] at h
    simp at h
  | false =>
    cases href : E.refresh t with
    | error e' =>
      have heq : validateAndRefreshToken E websiteId t s = (.error e', s) := by
        simp [validateAndRefreshToken, h1, refreshToken, href]
      rw [heq] at h
      simp at h
      subst h
      exact Or.inl ⟨rfl, by rw [heq]⟩
    | ok newToken =>
      cases h2 : validateToken E websiteId newToken with
      | true =>
        have heq : validateAndRefreshToken E websiteId t s
            = (.ok newToken, updateStoredToken websiteId (some newToken) s) := by
          simp [validateAndRefreshToken, h1, refreshToken, href, h2]
        rw [heq] at h
        simp at h
      | false =>
        cases hfb : truthyStr (envGet E.env (tokenEnvKey websiteId)) with
        | none =>
          have heq : validateAndRefreshToken E websiteId t s
              = (.error "No valid initial token available",
                  updateStoredToken websiteId (some newToken) s) := by
            simp [validateAndRefreshToken, h1, refreshToken, href, h2, hfb]
          exact Or.inr ⟨newToken, rfl, by rw [heq]⟩
        | some fb =>
          have heq : validateAndRefreshToken E websiteId t s
              = (.ok fb, updateStoredToken websiteId (some fb)
                  (updateStoredToken websiteId (some newToken) s)) := by
            simp [validateAndRefreshToken, h1, refreshToken, href, h2, hfb]
          rw [heq] at h
          simp at h

/-- Concrete run of `validateAndRefresh_error_state`: the refresh call
throws, and the call indeed leaves the store unchanged (left disjunct). -/
theorem validateAndRefresh_error_state_witness :
    (envRefreshThrows.refresh "T0" = .error "boom" ∧
      (validateAndRefreshToken envRefreshThrows "acme" "T0" emptyKV).2 = emptyKV) ∨
    (∃ nt, envRefreshThrows.refresh "T0" = .ok nt ∧
      (validateAndRefreshToken envRefreshThrows "acme" "T0" emptyKV).2
        = updateStoredToken "acme" (some nt) emptyKV) :=
  validateAndRefresh_error_state envRefreshThrows "acme" "T0" emptyKV "boom" (by decide)

/-! ### Claim C7 -/

/-- After any successful `validateAndRefreshToken` whose input token was
the one stored under the account's token key, the token key holds the
returned token. -/
theorem validateAndRefresh_kv_token_of_ok (E : Env) (websiteId t r : String) (s : KVState)
    (h0 : s.kv (storeTokenKey websiteId) = some (KVal.str t))
    (h : (validateAndRefreshToken E websiteId t s).1 = .ok r) :
    ((validateAndRefreshToken E websiteId t s).2).kv (storeTokenKey websiteId)
      = some (KVal.str r) := by
  cases h1 : validateToken E websiteId t with
  | true =>
    have heq : validateAndRefreshToken E websiteId t s = (.ok t, s) := by
      simp [validateAndRefreshToken, h1]
    rw [heq] at h ⊢
    simp at h
    subst h
    exact h0
  | false =>
    cases href : E.refresh t with
    | error e =>
      have heq : validateAndRefreshToken E websiteId t s = (.error e, s) := by
        simp [validateAndRefreshToken, h1, refreshToken, href]
      rw [heq] at h
      simp at h
    | ok newToken =>
      cases h2 : validateToken E websiteId newToken with
      | true =>
        have heq : validateAndRefreshToken E websiteId t s
            = (.ok newToken, updateStoredToken websiteId (some newToken) s) := by
          simp [validateAndRefreshToken, h1, refreshToken, href, h2]
        rw [heq] at h ⊢
        simp at h
        subst h
        simp
      | false =>
        cases hfb : truthyStr (envGet E.env (tokenEnvKey websiteId)) with
        | none =>
          have heq : validateAndRefreshToken E websiteId t s
              = (.error "No valid initial token available",
                  updateStoredToken websiteId (some newToken) s) := by
            simp [validateAndRefreshToken, h1, refreshToken, href, h2, hfb]
          rw [heq] at h
          simp at h
        | some fb =>
          have heq : validateAndRefreshToken E websiteId t s
              = (.ok fb, updateStoredToken websiteId (some fb)
                  (updateStoredToken websiteId (some newToken) s)) := by
            simp [validateAndRefreshToken, h1, refreshToken, href, h2, hfb]
          rw [heq] at h ⊢
          simp at h
          subst h
          simp

/-- After any successful `resolveToken`, the token key holds the
returned token. -/
theorem resolveToken_kv_token_of_ok (E : Env) (websiteId r : String) (s : KVState)
    (h : (resolveToken E websiteId s).1 = .ok r) :
    ((resolveToken E websiteId s).2).kv (storeTokenKey websiteId)
      = some (KVal.str r) := by
  cases hst : getStoredToken websiteId s with
  | some t =>
    have heq : resolveToken E websiteId s = validateAndRefreshToken E websiteId t s := by
      simp [resolveToken, hst]
    rw [heq] at h ⊢
    exact validateAndRefresh_kv_token_of_ok E websiteId t r s
      (getStoredToken_kv websiteId t s hst) h
  | none =>
    cases hfb : truthyStr (envGet E.env (tokenEnvKey websiteId)) with
    | none =>
      have heq : resolveToken E websiteId s = (.error "No valid token available", s) := by
        simp [resolveToken, hst, hfb]
      rw [heq] at h
      simp at h
    | some tok =>
      have heq : resolveToken E websiteId s
          = validateAndRefreshToken E websiteId tok
              (updateStoredToken websiteId (some tok) s) := by
        simp [resolveToken, hst, hfb]
      rw [heq] at h ⊢
      exact validateAndRefresh_kv_token_of_ok E websiteId tok r _ (by simp) h

/-- Environment of one account `acme` (fallback `FB`) whose provider
accepts only `T2`, refreshes `FB` to `T2` and everything else to `T1`. -/
def envFallbackChurn : Env :=
  { env := [("INITIAL_INSTAGRAM_TOKEN_ACME", "FB")]
    validate := fun t => t == "T2"
    refresh := fun t => if t == "FB" then .ok "T2" else .ok "T1" }

/-- Claim C7 counterexample: with no intervening change to the provider's
responses or to the store, the first `resolveToken` call ends on the
fallback path (stored token becomes `FB`), and the second call refreshes
again — its identity-check does not succeed immediately, it performs
store writes, and the stored token differs between the two calls
(`FB` then `T2`). -/
theorem resolveToken_not_idempotent :
    (resolveToken envFallbackChurn "acme" kvAcmeT0).1 = .ok "FB" ∧
    ((resolveToken envFallbackChurn "acme" kvAcmeT0).2).kv (storeTokenKey "acme")
        = some (KVal.str "FB") ∧
    (resolveToken envFallbackChurn "acme"
        ((resolveToken envFallbackChurn "acme" kvAcmeT0).2)).1 = .ok "T2" ∧
    ((resolveToken envFallbackChurn "acme"
        ((resolveToken envFallbackChurn "acme" kvAcmeT0).2)).2).kv (storeTokenKey "acme")
        = some (KVal.str "T2") := by
  exact ⟨by decide, by decide, by decide, by decide⟩

/-- Claim C7 (amended): calling `resolveToken` twice in succession with
no intervening change is idempotent provided the first call's returned
token is non-empty and passes the identity-check (true on the
valid-current and refreshed-and-revalidated paths, not guaranteed on the
fallback path): the second call returns the same token and performs no
store write. -/
theorem resolveToken_idempotent_of_validated (E : Env) (websiteId tok : String) (s : KVState)
    (h1 : (resolveToken E websiteId s).1 = .ok tok)
    (hval : validateToken E websiteId tok = true)
    (hne : tok ≠ "") :
    resolveToken E websiteId ((resolveToken E websiteId s).2)
      = (.ok tok, (resolveToken E websiteId s).2) := by
  have hkv := resolveToken_kv_token_of_ok E websiteId tok s h1
  have hst : getStoredToken websiteId ((resolveToken E websiteId s).2) = some tok :=
    getStoredToken_of_kv _ _ _ hkv hne
  generalize hgen : (resolveToken E websiteId s).2 = s1 at hst ⊢
  simp [resolveToken, hst, validateAndRefreshToken, hval]

/-- Concrete run of `resolveToken_idempotent_of_validated`: stored `T0`
always validates; the second call returns it with no write. -/
theorem resolveToken_idempotent_of_validated_witness :
    resolveToken envAllValid "acme" ((resolveToken envAllValid "acme" kvAcmeT0).2)
      = (.ok "T0", (resolveToken envAllValid "acme" kvAcmeT0).2) :=
  resolveToken_idempotent_of_validated envAllValid "acme" "T0" kvAcmeT0
    (by decide) (by decide) (by decide)

/-! ### Claim C5 -/

/-- The per-account step of bulk refresh as claim C5 states it (for
comparison with the implemented `refreshOneAccount`): load the stored
record or seed it from the fallback token if absent, and IN BOTH CASES
invoke `validateAndRefreshToken` on the resulting token. -/
def refreshOneAccountClaimed (E : Env) (websiteId : String) (s : KVState) : Bool × KVState :=
  match getStoredToken websiteId s with
  | some currentToken =>
    match validateAndRefreshToken E websiteId currentToken s with
    | (.ok _, s1) => (true, s1)
    | (.error _, s1) => (false, s1)
  | none =>
    match truthyStr (envGet E.env (tokenEnvKey websiteId)) with
    | none => (false, s)
    | some tk =>
      match validateAndRefreshToken E websiteId tk
          (updateStoredToken websiteId (some tk) s) with
      | (.ok _, s1) => (true, s1)
      | (.error _, s1) => (false, s1)

/-- Claim C5 counterexample: for the enumerated account `acme` with no
stored record, the implemented bulk-refresh step seeds the store and
reports success WITHOUT invoking `validateAndRefreshToken`, while the
step as claimed (seed, then `ensureValid`) would fail here because every
identity-check fails and the refresh call throws. -/
theorem refreshAll_seed_skips_ensureValid :
    (refreshAllTokens envRefreshThrows emptyKV).1 = [("acme", true)] ∧
    (refreshOneAccountClaimed envRefreshThrows "acme" emptyKV).1 = false := by
  exact ⟨by decide, by decide⟩

/-- Claim C5 (amended): the per-account step of `refreshAllTokens` loads
the stored record and invokes `validateAndRefreshToken` on it when
present; when absent it stores the account's initial env token directly
and reports success, without invoking `validateAndRefreshToken` — its
outcome is then independent of the remote provider's behavior. -/
theorem refreshOneAccount_behavior (E E' : Env) (websiteId t : String) (s : KVState) :
    (getStoredToken websiteId s = some t →
      refreshOneAccount E websiteId s
        = ((validateAndRefreshToken E websiteId t s).1.isOk,
            (validateAndRefreshToken E websiteId t s).2)) ∧
    (getStoredToken websiteId s = none → E.env = E'.env →
      refreshOneAccount E websiteId s = refreshOneAccount E' websiteId s ∧
      refreshOneAccount E websiteId s
        = (true, updateStoredToken websiteId (envGet E.env (tokenEnvKey websiteId)) s)) := by
  constructor
  · intro hst
    cases hvr : validateAndRefreshToken E websiteId t s with
    | mk r s1 =>
      cases r with
      | ok v => simp [refreshOneAccount, hst, hvr, Except.isOk, Except.toBool]
      | error e => simp [refreshOneAccount, hst, hvr, Except.isOk, Except.toBool]
  · intro hst henv
    refine ⟨?_, by simp [refreshOneAccount, hst]⟩
    simp [refreshOneAccount, hst, henv]

/-- Concrete run of `refreshOneAccount_behavior`: account `acme` has no
stored record; two environments sharing the same configuration but with
opposite provider behavior produce the same step outcome, which seeds
the store and reports success. -/
theorem refreshOneAccount_behavior_witness :
    refreshOneAccount envAllInvalid "acme" emptyKV
        = refreshOneAccount envRefreshThrows "acme" emptyKV ∧
    refreshOneAccount envAllInvalid "acme" emptyKV
        = (true, updateStoredToken "acme"
            (envGet envAllInvalid.env (tokenEnvKey "acme")) emptyKV) :=
  (refreshOneAccount_behavior envAllInvalid envRefreshThrows "acme" "unused" emptyKV).2
    (by decide) (by decide)

/-! ### Claim C6 -/

/-- An account whose stored token currently passes the identity-check:
its bulk-refresh step succeeds without any store write. -/
def storedValid (E : Env) (websiteId : String) (s : KVState) : Bool :=
  match getStoredToken websiteId s with
  | some t => validateToken E websiteId t
  | none => false

theorem refreshOneAccount_of_storedValid (E : Env) (websiteId : String) (s : KVState)
    (h : storedValid E websiteId s = true) :
    refreshOneAccount E websiteId s = (true, s) := by
  unfold storedValid at h
  cases hst : getStoredToken websiteId s with
  | none => rw [hst] at h; simp at h
  | some tk =>
    rw [hst] at h
    simp only [] at h
    have heq : validateAndRefreshToken E websiteId tk s = (.ok tk, s) := by
      simp [validateAndRefreshToken, h]
    simp [refreshOneAccount, hst, heq]

theorem refreshAllGo_of_storedValid (E : Env) (s : KVState) (l rest : List String)
    (h : ∀ id ∈ l, storedValid E id s = true) :
    refreshAllGo E (l ++ rest) s
      = ((l.map (fun i => (i, true))).append (refreshAllGo E rest s).1,
          (refreshAllGo E rest s).2) := by
  induction l with
  | nil => simp [refreshAllGo]
  | cons a as ih =>
    have ha : storedValid E a s = true := h a (by simp)
    have has : ∀ id ∈ as, storedValid E id s = true := fun id hid => h id (by simp [hid])
    simp [List.cons_append, refreshAllGo, refreshOneAccount_of_storedValid E a s ha, ih has]

theorem map_fst_pair_true (l : List String) :
    List.map (Prod.fst ∘ fun i => (i, true)) l = l := by
  induction l with
  | nil => rfl
  | cons a as ih => simp [ih]

theorem filter_snd_pair_true_length (l : List String) :
    (List.filter (fun p => p.2) (l.map (fun i => (i, true)))).length = l.length := by
  induction l with
  | nil => rfl
  | cons a as ih => simp [List.filter, ih]

/-- Claim C6: in `refreshAllTokens` over enumerated accounts
`l1 ++ b :: l2` where account `b`'s provider refresh call throws and the
other accounts' stored tokens validate, every account is still processed
exactly once in order (the batch does not abort and nothing is retried),
the failing account is recorded as failed, the remaining N−1 accounts are
recorded as successes, and the store is unchanged. -/
theorem refreshAllTokens_one_failure (E : Env) (s : KVState) (l1 l2 : List String)
    (b tb e : String)
    (hids : websiteIdsOf E.env = l1 ++ b :: l2)
    (hok : ∀ id ∈ l1 ++ l2, storedValid E id s = true)
    (hb : getStoredToken b s = some tb)
    (hbinv : validateToken E b tb = false)
    (hbthrow : E.refresh tb = .error e) :
    (refreshAllTokens E s).1
        = l1.map (fun i => (i, true)) ++ (b, false) :: l2.map (fun i => (i, true)) ∧
    ((refreshAllTokens E s).1).map Prod.fst = websiteIdsOf E.env ∧
    (((refreshAllTokens E s).1).filter (fun p => p.2)).length
        = (websiteIdsOf E.env).length - 1 ∧
    (refreshAllTokens E s).2 = s := by
  have hok1 : ∀ id ∈ l1, storedValid E id s = true := fun id hid => hok id (by simp [hid])
  have hok2 : ∀ id ∈ l2, storedValid E id s = true := fun id hid => hok id (by simp [hid])
  have hbstep : refreshOneAccount E b s = (false, s) := by
    simp [refreshOneAccount, hb, validateAndRefreshToken, hbinv, refreshToken, hbthrow]
  have hl2 : refreshAllGo E l2 s = (l2.map (fun i => (i, true)), s) := by
    have := refreshAllGo_of_storedValid E s l2 [] hok2
    simpa [refreshAllGo] using this
  have hrest : refreshAllGo E (b :: l2) s = ((b, false) :: l2.map (fun i => (i, true)), s) := by
    simp [refreshAllGo, hbstep, hl2]
  have hall : refreshAllGo E (l1 ++ b :: l2) s
      = (l1.map (fun i => (i, true)) ++ (b, false) :: l2.map (fun i => (i, true)), s) := by
    rw [refreshAllGo_of_storedValid E s l1 (b :: l2) hok1, hrest]
    simp
  have hmain : refreshAllTokens E s
      = (l1.map (fun i => (i, true)) ++ (b, false) :: l2.map (fun i => (i, true)), s) := by
    rw [refreshAllTokens, hids, hall]
  refine ⟨by rw [hmain], ?_, ?_, by rw [hmain]⟩
  · rw [hmain, hids]
    simp [map_fst_pair_true]
  · rw [hmain, hids]
    simp [List.filter_append, filter_snd_pair_true_length]

/-- Environment of three accounts `aa`, `bb`, `cc` whose provider rejects
only the token `tb` and throws only when refreshing `tb`. -/
def envThreeAccounts : Env :=
  { env := [("INITIAL_INSTAGRAM_TOKEN_AA", "fa"), ("INITIAL_INSTAGRAM_TOKEN_BB", "fb"),
            ("INITIAL_INSTAGRAM_TOKEN_CC", "fc")]
    validate := fun t => !(t == "tb")
    refresh := fun t => if t == "tb" then .error "boom" else .ok "tx" }

/-- A store holding tokens `ta`, `tb`, `tc` for accounts `aa`, `bb`, `cc`. -/
def kvThreeAccounts : KVState :=
  kvSet (storeTokenKey "cc") (KVal.str "tc")
    (kvSet (storeTokenKey "bb") (KVal.str "tb")
      (kvSet (storeTokenKey "aa") (KVal.str "ta") emptyKV))

/-- Concrete run of `refreshAllTokens_one_failure`: of three enumerated
accounts only `bb`'s refresh throws; the batch reports
`[aa ↦ ok, bb ↦ failed, cc ↦ ok]` and processes all three. -/
theorem refreshAllTokens_one_failure_witness :
    (refreshAllTokens envThreeAccounts kvThreeAccounts).1
        = [("aa", true), ("bb", false), ("cc", true)] ∧
    ((refreshAllTokens envThreeAccounts kvThreeAccounts).1).map Prod.fst
        = websiteIdsOf envThreeAccounts.env ∧
    (((refreshAllTokens envThreeAccounts kvThreeAccounts).1).filter (fun p => p.2)).length
        = (websiteIdsOf envThreeAccounts.env).length - 1 ∧
    (refreshAllTokens envThreeAccounts kvThreeAccounts).2 = kvThreeAccounts := by
  have h := refreshAllTokens_one_failure envThreeAccounts kvThreeAccounts ["aa"] ["cc"]
    "bb" "tb" "boom" (by decide) (by decide) (by decide) (by decide) (by decide)
  simpa using h

/-! ### Claim C8 -/

/-- Claim C8 counterexample: `acme` and `ACME` differ only in letter
case and are both accepted as configured accounts (the environment
lookup is normalized), yet a store write under `acme` is invisible to a
store read under `ACME`: the store keys are built from the raw id, so
the two case variants address distinct store entries. -/
theorem storeKeys_case_sensitive_counterexample :
    isValidWebsiteId envAllValid.env "acme" = true ∧
    isValidWebsiteId envAllValid.env "ACME" = true ∧
    getStoredToken "acme" (updateStoredToken "acme" (some "T0") emptyKV) = some "T0" ∧
    getStoredToken "ACME" (updateStoredToken "acme" (some "T0") emptyKV) = none := by
  exact ⟨by decide, by decide, by decide, by decide⟩

/-- Claim C8 (amended): the environment lookup normalizes the account id
(uppercasing it), so ids that agree up to case address the same
configuration entry; but the two Credential Store keys are built from the
raw id, so distinct case variants address distinct store entries — the
one-record-per-account invariant is NOT preserved across case variants. -/
theorem envLookup_normalized_storeKeys_raw (env : List (String × String)) (id1 id2 : String)
    (hcase : strUpper id1 = strUpper id2) :
    isValidWebsiteId env id1 = isValidWebsiteId env id2 ∧
    (id1 ≠ id2 → storeTokenKey id1 ≠ storeTokenKey id2 ∧
      storeDateKey id1 ≠ storeDateKey id2) := by
  constructor
  · simp [isValidWebsiteId, tokenEnvKey, hcase]
  · intro hne
    exact ⟨fun h => hne (storeTokenKey_injective id1 id2 h),
      fun h => hne (storeDateKey_injective id1 id2 h)⟩

/-- Concrete run of `envLookup_normalized_storeKeys_raw` at the case
variants `acme` / `ACME`. -/
theorem envLookup_normalized_storeKeys_raw_witness :
    isValidWebsiteId envAllValid.env "acme" = isValidWebsiteId envAllValid.env "ACME" ∧
    ("acme" ≠ "ACME" → storeTokenKey "acme" ≠ storeTokenKey "ACME" ∧
      storeDateKey "acme" ≠ storeDateKey "ACME") :=
  envLookup_normalized_storeKeys_raw envAllValid.env "acme" "ACME" (by decide)

/-! ### Claim C9 -/

/-- Claim C9: an on-demand fetch for an unconfigured account id is
answered with HTTP 400 and the `Invalid websiteID` failure message, and
the Credential Store is neither read nor written: the response and final
state are `(.badRequest "Invalid websiteID", s)` for EVERY store state
`s`, so no store access influences or is caused by the request. -/
theorem apiHandler_invalid_websiteId (E : Env) (req : Req) (s : KVState) (id : String)
    (hm : req.method ≠ "OPTIONS")
    (hq : req.websiteId = some id)
    (hne : id ≠ "")
    (hinvalid : isValidWebsiteId E.env id = false) :
    apiHandler E req s = (.badRequest "Invalid websiteID", s) ∧
    (ApiResp.badRequest "Invalid websiteID").status = 400 := by
  refine ⟨?_, rfl⟩
  simp [apiHandler, hm, hq, truthyStr, hne, hinvalid]

/-- Concrete run of `apiHandler_invalid_websiteId`: a `GET` for the
unconfigured account `ghost`. -/
theorem apiHandler_invalid_websiteId_witness :
    apiHandler envAllValid { method := "GET", websiteId := some "ghost" } kvAcmeT0
        = (.badRequest "Invalid websiteID", kvAcmeT0) ∧
    (ApiResp.badRequest "Invalid websiteID").status = 400 :=
  apiHandler_invalid_websiteId envAllValid { method := "GET", websiteId := some "ghost" }
    kvAcmeT0 "ghost" (by decide) (by decide) (by decide) (by decide)

end InstagramToken
